import Mathlib

/-!
Shallow embedding of the executor-selection core of
`app/buck2_server/src/daemon/common.rs`: the `ExecutionStrategy` ban
predicates, the cache-checker chain selection, the cache uploader
selection, and `get_command_executor` of `CommandExecutorFactory`,
together with `parse_concurrency`.

External effects are made explicit parameters: the two environment
variable overrides (`BUCK2_TEST_DISABLE_CACHING`,
`BUCK2_TEST_ONLY_REMOTE_DEP_FILE_CACHE`) are passed as already-parsed
`Option Bool` values, the build-flavor test
`!is_open_source() && !cfg!(fbcode_build)` is the boolean `cargo_build`,
and the detected host parallelism `num_cpus::get()` is a `Nat` argument.
Shared runtime handles (materializer, RE connection, broker, filter,
worker pool) carry no data relevant to the verified claims; executors
record the configuration-derived fields the source writes into them.
-/

namespace Buck2

/-- The invocation-wide execution strategy override
(`buck2_cli_proto::common_build_options::ExecutionStrategy`). -/
inductive ExecutionStrategy where
  | Default
  | LocalOnly
  | RemoteOnly
  | HybridPreferLocal
  | HybridPreferRemote
  | NoExecution
deriving DecidableEq, Repr

/-- Executor preference governing hybrid racing order
(`buck2_execute::execute::request::ExecutorPreference`). -/
inductive ExecutorPreference where
  | Default
  | LocalPreferred
  | RemotePreferred
  | LocalRequired
  | RemoteRequired
  | DefaultErasePreferences
deriving DecidableEq, Repr

/-- `ExecutionStrategy::ban_local` (common.rs lines 394-399). -/
def ExecutionStrategy.ban_local : ExecutionStrategy → Bool
  | .RemoteOnly | .NoExecution => true
  | _ => false

/-- `ExecutionStrategy::ban_remote` (common.rs lines 401-406). -/
def ExecutionStrategy.ban_remote : ExecutionStrategy → Bool
  | .LocalOnly | .NoExecution => true
  | _ => false

/-- `ExecutionStrategy::ban_hybrid` (common.rs lines 408-413). -/
def ExecutionStrategy.ban_hybrid : ExecutionStrategy → Bool
  | .NoExecution => true
  | _ => false

/-- `ExecutionStrategy::hybrid_preference` (common.rs lines 415-423). -/
def ExecutionStrategy.hybrid_preference : ExecutionStrategy → ExecutorPreference
  | .HybridPreferLocal => .LocalPreferred
  | .HybridPreferRemote => .RemotePreferred
  | .LocalOnly => .LocalRequired
  | .RemoteOnly => .RemoteRequired
  | _ => .Default

/-- Whether a preference demands local execution. -/
def ExecutorPreference.requires_local : ExecutorPreference → Bool
  | .LocalRequired => true
  | _ => false

/-- Whether a preference demands remote execution. -/
def ExecutorPreference.requires_remote : ExecutorPreference → Bool
  | .RemoteRequired => true
  | _ => false

/-- Modelled from the spec: `ExecutorPreference::and` lives in
`buck2_execute::execute::request`, which is not part of the sampled
sources. The spec says `DefaultErasePreferences` "excludes preference
shortcuts": the combination keeps any hard requirement of either side
(conflicting requirements are an error), and otherwise erases the
`LocalPreferred`/`RemotePreferred` shortcuts whenever either side is
`DefaultErasePreferences`. -/
def ExecutorPreference.and (a b : ExecutorPreference) : Except String ExecutorPreference :=
  if a.requires_local || b.requires_local then
    if a.requires_remote || b.requires_remote then
      .error "conflicting executor preferences"
    else
      .ok .LocalRequired
  else if a.requires_remote || b.requires_remote then
    .ok .RemoteRequired
  else if a = .DefaultErasePreferences || b = .DefaultErasePreferences then
    .ok .DefaultErasePreferences
  else if a = .LocalPreferred || b = .LocalPreferred then
    .ok .LocalPreferred
  else if a = .RemotePreferred || b = .RemotePreferred then
    .ok .RemotePreferred
  else
    .ok .Default

/-- `LocalExecutorOptions`: the only field common.rs consults is
`use_persistent_workers` (line 138); its Rust `Default` is `false`. -/
structure LocalExecutorOptions where
  use_persistent_workers : Bool := false
deriving DecidableEq, Repr

/-- `RemoteExecutorOptions`: the fields common.rs consults are
`re_max_queue_time_ms` (line 186) and `re_max_input_files_bytes`
(line 293), both optional. -/
structure RemoteExecutorOptions where
  re_max_queue_time_ms : Option Nat := none
  re_max_input_files_bytes : Option Nat := none
deriving DecidableEq, Repr

/-- `HybridExecutionLevel` (spec section 3): `Limited` or
`Full { fallback_on_failure, low_pass_filter }`; common.rs line 315
constructs `Full { fallback_on_failure: true, low_pass_filter: false }`. -/
inductive HybridExecutionLevel where
  | Limited
  | Full (fallback_on_failure : Bool) (low_pass_filter : Bool)
deriving DecidableEq, Repr

/-- `CacheUploadBehavior`: `Disabled` or `Enabled { max_bytes }`
(common.rs line 355). -/
inductive CacheUploadBehavior where
  | Disabled
  | Enabled (max_bytes : Option Nat)
deriving DecidableEq, Repr

/-- Inner variant of a `RemoteEnabled` executor config
(`buck2_core::execution_types::executor_config::RemoteEnabledExecutor`),
as matched at common.rs lines 275-334. -/
inductive RemoteEnabledExecutor where
  | Local (opts : LocalExecutorOptions)
  | Remote (opts : RemoteExecutorOptions)
  | Hybrid (lopts : LocalExecutorOptions) (ropts : RemoteExecutorOptions)
      (level : HybridExecutionLevel)
deriving DecidableEq, Repr

/-- `Executor`: the tagged union dispatched on at common.rs line 195.
The remote use case is modelled as a plain string tag. -/
inductive Executor where
  | Local (opts : LocalExecutorOptions)
  | RemoteEnabled (executor : RemoteEnabledExecutor)
      (re_properties : List (String × String))
      (re_use_case : String)
      (re_action_key : Option String)
      (cache_upload_behavior : CacheUploadBehavior)
      (remote_cache_enabled : Bool)
      (remote_dep_file_cache_enabled : Bool)
deriving DecidableEq, Repr

/-- `CommandExecutorConfig`; the `CommandGenerationOptions` field is not
consulted by `get_command_executor` and is omitted. -/
structure CommandExecutorConfig where
  executor : Executor
deriving DecidableEq, Repr

/-- The configuration-derived state of a constructed `LocalExecutor`
(common.rs lines 137-153): whether a worker pool handle was attached. -/
structure LocalExecutor where
  worker_pool : Bool
deriving DecidableEq, Repr

/-- The configuration-derived state of a constructed `ReExecutor`
(common.rs lines 175-193). -/
structure ReExecutor where
  re_use_case : String
  re_action_key : Option String
  re_max_queue_time_ms : Option Nat
  skip_cache_read : Bool
  skip_cache_write : Bool
  paranoid : Bool
  materialize_failed_inputs : Bool
deriving DecidableEq, Repr

/-- The cache-checker chain (`PreparedCommandOptionalExecutor`):
`NoOpCommandOptionalExecutor`, `RemoteDepFileCacheChecker`
(common.rs lines 244-253) or `ActionCacheChecker` with its internal
`remote_dep_file_checker` fallback (common.rs lines 261-271). -/
inductive CacheChecker where
  | NoOp
  | RemoteDepFile (re_use_case : String) (re_action_key : Option String)
      (upload_all_actions : Bool) (paranoid : Bool)
  | ActionCache (re_use_case : String) (re_action_key : Option String)
      (upload_all_actions : Bool) (paranoid : Bool)
      (remote_dep_file_checker : CacheChecker)
deriving DecidableEq, Repr

/-- The constructed `PreparedCommandExecutor`: a `LocalExecutor`, a
`ReExecutor`, a `HybridExecutor` (common.rs lines 309-331), or a
`StackedExecutor` composing a cache checker with a fallback executor
(common.rs lines 311-314). -/
inductive PreparedExecutor where
  | LocalExec (e : LocalExecutor)
  | ReExec (e : ReExecutor)
  | HybridExec (lexec : LocalExecutor) (remote : PreparedExecutor)
      (level : HybridExecutionLevel)
      (executor_preference : ExecutorPreference)
      (re_max_input_files_bytes : Nat)
  | StackedExec (optional : CacheChecker) (fallback : PreparedExecutor)
deriving DecidableEq, Repr

/-- The cache uploader: `NoOpCacheUploader` or a `CacheUploader` bounded
by `max_bytes` (common.rs lines 353-366). -/
inductive CacheUploader where
  | NoOp
  | Uploader (re_use_case : String) (platform : List (String × String))
      (max_bytes : Option Nat)
deriving DecidableEq, Repr

/-- `CommandExecutorResponse` (executor, platform descriptor,
cache checker, cache uploader). The platform is the property list built
from `re_properties` (common.rs lines 343-351); for local responses it
is `Default::default()`, the empty list. -/
structure CommandExecutorResponse where
  executor : PreparedExecutor
  platform : List (String × String)
  cache_checker : CacheChecker
  cache_uploader : CacheUploader
deriving DecidableEq, Repr

/-- The per-invocation factory state consulted by
`get_command_executor` (common.rs lines 68-88). `paranoid` is
`self.paranoid.is_some()`. -/
structure CommandExecutorFactory where
  strategy : ExecutionStrategy
  upload_all_actions : Bool
  skip_cache_read : Bool
  skip_cache_write : Bool
  paranoid : Bool
  materialize_failed_inputs : Bool
deriving DecidableEq, Repr

/-- The process environment read by `get_command_executor`:
`cargo_build` is `!is_open_source() && !cfg!(fbcode_build)`
(common.rs line 155), and the two test override variables arrive
already parsed. -/
structure ExecEnv where
  cargo_build : Bool
  disable_caching_env : Option Bool
  only_remote_dep_file_cache_env : Option Bool
deriving DecidableEq, Repr

/-- Error of the cargo-build branch (common.rs lines 162-165). -/
def STRATEGY_INCOMPATIBLE_WITH_LOCAL : String :=
  "The desired execution strategy is incompatible with the local executor"

/-- Error of the final `with_context` (common.rs lines 377-380). -/
def STRATEGY_INCOMPATIBLE_WITH_CONFIG : String :=
  "The desired execution strategy is incompatible with the executor config that was selected"

/-- 30 GiB input ceiling (common.rs line 135). -/
def DEFAULT_RE_MAX_INPUT_FILE_BYTES : Nat := 30 * 1024 * 1024 * 1024

/-- `local_executor_new` (common.rs lines 137-153): attaches the worker
pool exactly when the options opt into persistent workers. -/
def local_executor_new (opts : LocalExecutorOptions) : LocalExecutor :=
  { worker_pool := opts.use_persistent_workers }

/-- `remote_executor_new` (common.rs lines 175-193). -/
def remote_executor_new (f : CommandExecutorFactory) (opts : RemoteExecutorOptions)
    (re_use_case : String) (re_action_key : Option String)
    (remote_cache_enabled : Bool) : ReExecutor :=
  { re_use_case := re_use_case
    re_action_key := re_action_key
    re_max_queue_time_ms := opts.re_max_queue_time_ms
    skip_cache_read := f.skip_cache_read || !remote_cache_enabled
    skip_cache_write := f.skip_cache_write || !remote_cache_enabled
    paranoid := f.paranoid
    materialize_failed_inputs := f.materialize_failed_inputs }

/-- The `disable_caching` computation of common.rs lines 223-228:
the `BUCK2_TEST_DISABLE_CACHING` value when the variable is set,
otherwise `skip_cache_read`; then forced on when both remote caches are
disabled in the config. -/
def disable_caching_flag (dc_env : Option Bool) (skip_cache_read : Bool)
    (remote_cache_enabled remote_dep_file_cache_enabled : Bool) : Bool :=
  let disable_caching := dc_env.getD skip_cache_read
  disable_caching ||
    (!remote_cache_enabled && !remote_dep_file_cache_enabled)

/-- `cache_checker_new` (common.rs lines 237-273). -/
def cache_checker_new (f : CommandExecutorFactory)
    (disable_caching only_remote_dep_file_cache : Bool)
    (remote_dep_file_cache_enabled : Bool)
    (re_use_case : String) (re_action_key : Option String) : CacheChecker :=
  if disable_caching then
    .NoOp
  else
    let remote_dep_file_checker : CacheChecker :=
      if remote_dep_file_cache_enabled then
        .RemoteDepFile re_use_case re_action_key f.upload_all_actions f.paranoid
      else
        .NoOp
    if only_remote_dep_file_cache then
      remote_dep_file_checker
    else
      .ActionCache re_use_case re_action_key f.upload_all_actions f.paranoid
        remote_dep_file_checker

/-- The executor candidate of the `RemoteEnabled` arm (common.rs
lines 275-335): `None` encodes a ban of the requested variant. -/
def remote_enabled_candidate (f : CommandExecutorFactory)
    (cc0 : CacheChecker) (inner : RemoteEnabledExecutor)
    (re_use_case : String) (re_action_key : Option String)
    (remote_cache_enabled : Bool) : Except String (Option PreparedExecutor) :=
  match inner with
  | .Local lopts =>
      if !f.strategy.ban_local then
        .ok (some (.LocalExec (local_executor_new lopts)))
      else
        .ok none
  | .Remote ropts =>
      if !f.strategy.ban_remote then
        .ok (some (.ReExec
          (remote_executor_new f ropts re_use_case re_action_key remote_cache_enabled)))
      else
        .ok none
  | .Hybrid lopts ropts level =>
      if !f.strategy.ban_hybrid then
        let re_max_input_files_bytes :=
          ropts.re_max_input_files_bytes.getD DEFAULT_RE_MAX_INPUT_FILE_BYTES
        let lexec := local_executor_new lopts
        let rexec :=
          remote_executor_new f ropts re_use_case re_action_key remote_cache_enabled
        let executor_preference := f.strategy.hybrid_preference
        if f.paranoid then
          match executor_preference.and .DefaultErasePreferences with
          | .error e => .error e
          | .ok pref =>
              .ok (some (.HybridExec lexec
                (.StackedExec cc0 (.ReExec rexec))
                (.Full true false) pref re_max_input_files_bytes))
        else
          .ok (some (.HybridExec lexec (.ReExec rexec) level
            executor_preference re_max_input_files_bytes))
      else
        .ok none

/-- `get_command_executor` (common.rs lines 129-383). -/
def get_command_executor (f : CommandExecutorFactory) (env : ExecEnv)
    (executor_config : CommandExecutorConfig) :
    Except String CommandExecutorResponse :=
  if env.cargo_build then
    if f.strategy.ban_local then
      .error STRATEGY_INCOMPATIBLE_WITH_LOCAL
    else
      .ok { executor := .LocalExec (local_executor_new {})
            platform := []
            cache_checker := .NoOp
            cache_uploader := .NoOp }
  else
    let response : Except String (Option CommandExecutorResponse) :=
      match executor_config.executor with
      | .Local lopts =>
          if f.strategy.ban_local then
            .ok none
          else
            .ok (some { executor := .LocalExec (local_executor_new lopts)
                        platform := []
                        cache_checker := .NoOp
                        cache_uploader := .NoOp })
      | .RemoteEnabled inner props re_use_case re_action_key
          cache_upload_behavior remote_cache_enabled remote_dep_file_cache_enabled =>
          let disable_caching :=
            disable_caching_flag env.disable_caching_env f.skip_cache_read
              remote_cache_enabled remote_dep_file_cache_enabled
          let only_remote_dep_file_cache :=
            env.only_remote_dep_file_cache_env.getD false
          let cc0 :=
            cache_checker_new f disable_caching only_remote_dep_file_cache
              remote_dep_file_cache_enabled re_use_case re_action_key
          match remote_enabled_candidate f cc0 inner re_use_case re_action_key
              remote_cache_enabled with
          | .error e => .error e
          | .ok none => .ok none
          | .ok (some ex) =>
              let cache_checker := if f.paranoid then CacheChecker.NoOp else cc0
              let cache_uploader :=
                if disable_caching then
                  CacheUploader.NoOp
                else
                  match cache_upload_behavior with
                  | .Enabled max_bytes => .Uploader re_use_case props max_bytes
                  | .Disabled => .NoOp
              .ok (some { executor := ex
                          platform := props
                          cache_checker := cache_checker
                          cache_uploader := cache_uploader })
    match response with
    | .error e => .error e
    | .ok (some r) => .ok r
    | .ok none => .error STRATEGY_INCOMPATIBLE_WITH_CONFIG

/-- `parse_concurrency` (common.rs lines 56-64): the detected host
parallelism `num_cpus::get()` is passed in as `numCpus`. A `u32`
always converts cleanly into a 64-bit `usize`, so the `try_into`
context error path is unreachable and the function is total. -/
def parse_concurrency (numCpus : Nat) (requested : Nat) : Except String Nat :=
  let ret := requested
  if ret = 0 then .ok numCpus else .ok ret

/-- The spec sentence of claim C2, taken literally: disable caching when
the environment override is set to true, OR `skip_cache_read` holds, OR
both remote caches are disabled. Written from the spec's words, to be
compared with `disable_caching_flag` taken from the source. -/
def disable_caching_claimed (dc_env : Option Bool) (skip_cache_read : Bool)
    (remote_cache_enabled remote_dep_file_cache_enabled : Bool) : Bool :=
  (dc_env == some true) || skip_cache_read ||
    (!remote_cache_enabled && !remote_dep_file_cache_enabled)

end Buck2

/-!
Theorems settling the claims C1 to C10. `Cn_witness` theorems instantiate
the corresponding claim theorem at a concrete input.
-/

namespace Buck2

/-- C1 counterexample: the claim asserts that `ban_hybrid` is true for
every strategy other than `Default`/`HybridPrefer*`, in particular for
`LocalOnly` and `RemoteOnly`; the source (common.rs lines 408-413)
returns true only for `NoExecution`, so `ban_hybrid` is false at both. -/
theorem C1_counterexample :
    ExecutionStrategy.ban_hybrid .LocalOnly = false ∧
    ExecutionStrategy.ban_hybrid .RemoteOnly = false := by decide

/-- C1 amended: `NoExecution` bans local, remote and hybrid;
`ban_local` holds exactly for `RemoteOnly` and `NoExecution`;
`ban_remote` holds exactly for `LocalOnly` and `NoExecution`; and
`ban_hybrid` holds only for `NoExecution` — it is false for every other
strategy, including `LocalOnly` and `RemoteOnly`. -/
theorem C1_amended_ban_predicates : ∀ s : ExecutionStrategy,
    (s.ban_local = true ↔ (s = .RemoteOnly ∨ s = .NoExecution)) ∧
    (s.ban_remote = true ↔ (s = .LocalOnly ∨ s = .NoExecution)) ∧
    (s.ban_hybrid = true ↔ s = .NoExecution) := by
  intro s; cases s <;> decide

/-- C2 counterexample: with `BUCK2_TEST_DISABLE_CACHING` explicitly set
to false, `skip_cache_read = true` and `remote_cache_enabled = true`,
the source computes `disable_caching = false` (the set variable replaces
`skip_cache_read`, common.rs line 225), while the claimed disjunction
evaluates to true. -/
theorem C2_counterexample :
    disable_caching_flag (some false) true true false = false ∧
    disable_caching_claimed (some false) true true false = true := by decide

/-- C2 amended: `disable_caching` equals (the value of
`BUCK2_TEST_DISABLE_CACHING` when set, otherwise `skip_cache_read`)
OR (`remote_cache_enabled` false AND `remote_dep_file_cache_enabled`
false); when the environment variable is set, its value replaces
`skip_cache_read` entirely, so the flag is then independent of
`skip_cache_read`. -/
theorem C2_amended_disable_caching (dc_env : Option Bool) (scr rce rdfce : Bool) :
    disable_caching_flag dc_env scr rce rdfce =
      (dc_env.getD scr || (!rce && !rdfce)) ∧
    (∀ b scr2, disable_caching_flag (some b) scr rce rdfce =
      disable_caching_flag (some b) scr2 rce rdfce) :=
  ⟨rfl, fun _ _ => rfl⟩

/-- C3: for every `RemoteEnabled` config processed without paranoid
mode, the returned cache checker follows the selection policy: a no-op
when caching is disabled; the remote-dep-file checker alone (itself a
no-op when the dep-file cache is disabled) under the
only-remote-dep-file override; otherwise the action-cache checker whose
internal fallback is the remote-dep-file checker. -/
theorem C3_cache_checker_selection (strat : ExecutionStrategy)
    (ua scr scw mfi : Bool) (dcE onlyE : Option Bool)
    (inner : RemoteEnabledExecutor) (props : List (String × String))
    (uc : String) (key : Option String) (cub : CacheUploadBehavior)
    (rce rdfce : Bool) (r : CommandExecutorResponse)
    (h : get_command_executor ⟨strat, ua, scr, scw, false, mfi⟩
        ⟨false, dcE, onlyE⟩
        ⟨.RemoteEnabled inner props uc key cub rce rdfce⟩ = .ok r) :
    r.cache_checker =
      (let dc := disable_caching_flag dcE scr rce rdfce
       let only := onlyE.getD false
       let dfc : CacheChecker :=
         if rdfce then .RemoteDepFile uc key ua false else .NoOp
       if dc then .NoOp
       else if only then dfc
       else .ActionCache uc key ua false dfc) := by
  cases inner with
  | Local lopts =>
      cases hb : strat.ban_local
      all_goals simp [get_command_executor, remote_enabled_candidate,
        cache_checker_new, hb] at h
      all_goals simp [← h]
  | Remote ropts =>
      cases hb : strat.ban_remote
      all_goals simp [get_command_executor, remote_enabled_candidate,
        cache_checker_new, hb] at h
      all_goals simp [← h]
  | Hybrid lopts ropts level =>
      cases hb : strat.ban_hybrid
      all_goals simp [get_command_executor, remote_enabled_candidate,
        cache_checker_new, hb] at h
      all_goals simp [← h]

/-- C3 witness: a non-paranoid factory with both caches enabled in the
config and no overrides receives the action-cache checker with the
dep-file checker as its internal fallback. -/
theorem C3_witness :
    ({ executor := .ReExec ⟨"uc", none, none, false, false, false, false⟩
       platform := []
       cache_checker := .ActionCache "uc" none false false
         (.RemoteDepFile "uc" none false false)
       cache_uploader := .NoOp } : CommandExecutorResponse).cache_checker =
      .ActionCache "uc" none false false (.RemoteDepFile "uc" none false false) :=
  C3_cache_checker_selection .Default false false false false none none
    (.Remote {}) [] "uc" none .Disabled true true _ rfl

/-- C4: with paranoid mode active, a `RemoteEnabled` Hybrid config whose
strategy does not ban hybrid yields a hybrid executor whose preference
is the strategy preference combined with `DefaultErasePreferences`,
whose remote side is a stacked executor running the cache-checker chain
before the remote executor, at level `Full { fallback_on_failure: true,
low_pass_filter: false }`, while the top-level cache checker of the
response is the no-op checker. -/
theorem C4_paranoid_hybrid (strat : ExecutionStrategy)
    (ua scr scw mfi : Bool) (dcE onlyE : Option Bool)
    (lopts : LocalExecutorOptions) (ropts : RemoteExecutorOptions)
    (level : HybridExecutionLevel) (props : List (String × String))
    (uc : String) (key : Option String) (cub : CacheUploadBehavior)
    (rce rdfce : Bool) (ep : ExecutorPreference)
    (hban : strat.ban_hybrid = false)
    (hep : ExecutorPreference.and strat.hybrid_preference
      .DefaultErasePreferences = .ok ep) :
    get_command_executor ⟨strat, ua, scr, scw, true, mfi⟩ ⟨false, dcE, onlyE⟩
        ⟨.RemoteEnabled (.Hybrid lopts ropts level) props uc key cub rce rdfce⟩ =
      .ok { executor := .HybridExec (local_executor_new lopts)
              (.StackedExec
                (cache_checker_new ⟨strat, ua, scr, scw, true, mfi⟩
                  (disable_caching_flag dcE scr rce rdfce) (onlyE.getD false)
                  rdfce uc key)
                (.ReExec (remote_executor_new ⟨strat, ua, scr, scw, true, mfi⟩
                  ropts uc key rce)))
              (.Full true false) ep
              (ropts.re_max_input_files_bytes.getD DEFAULT_RE_MAX_INPUT_FILE_BYTES)
            platform := props
            cache_checker := .NoOp
            cache_uploader :=
              if disable_caching_flag dcE scr rce rdfce then .NoOp
              else match cub with
                | .Enabled mb => .Uploader uc props mb
                | .Disabled => .NoOp } := by
  simp [get_command_executor, remote_enabled_candidate, hban, hep]

/-- C4 witness: a paranoid factory under the `Default` strategy on a
hybrid config with both caches live produces the stacked remote side and
a no-op top-level cache checker. -/
theorem C4_witness :
    get_command_executor ⟨.Default, false, false, false, true, false⟩
        ⟨false, none, none⟩
        ⟨.RemoteEnabled (.Hybrid {} {} .Limited) [] "uc" none .Disabled true true⟩ =
      .ok { executor := .HybridExec { worker_pool := false }
              (.StackedExec
                (.ActionCache "uc" none false true
                  (.RemoteDepFile "uc" none false true))
                (.ReExec ⟨"uc", none, none, false, false, true, false⟩))
              (.Full true false) .DefaultErasePreferences 32212254720
            platform := []
            cache_checker := .NoOp
            cache_uploader := .NoOp } :=
  C4_paranoid_hybrid .Default false false false false none none {} {} .Limited
    [] "uc" none .Disabled true true .DefaultErasePreferences rfl rfl

/-- C5: with strategy `NoExecution`, `get_command_executor` fails for
every executor config and every environment, returning the
strategy-incompatibility error of whichever branch is taken. -/
theorem C5_no_execution_always_fails (ua scr scw par mfi : Bool)
    (env : ExecEnv) (cfg : CommandExecutorConfig) :
    get_command_executor ⟨.NoExecution, ua, scr, scw, par, mfi⟩ env cfg =
      .error (if env.cargo_build then STRATEGY_INCOMPATIBLE_WITH_LOCAL
              else STRATEGY_INCOMPATIBLE_WITH_CONFIG) := by
  obtain ⟨cb, dcE, onlyE⟩ := env
  obtain ⟨cfge⟩ := cfg
  cases cb
  · cases cfge with
    | Local lopts => rfl
    | RemoteEnabled inner props uc key cub rce rdfce => cases inner <;> rfl
  · rfl

/-- C6: under `LocalOnly`, a `RemoteEnabled` config with inner variant
`Remote` fails and a `Local` config succeeds; under `RemoteOnly`, a
`Local` config fails and a `RemoteEnabled` config with inner variant
`Remote` succeeds (with access to the remote service). -/
theorem C6_local_only_remote_only (ua scr scw par mfi : Bool)
    (dcE onlyE : Option Bool)
    (lopts : LocalExecutorOptions) (ropts : RemoteExecutorOptions)
    (props : List (String × String)) (uc : String) (key : Option String)
    (cub : CacheUploadBehavior) (rce rdfce : Bool) :
    (∃ e, get_command_executor ⟨.LocalOnly, ua, scr, scw, par, mfi⟩
        ⟨false, dcE, onlyE⟩
        ⟨.RemoteEnabled (.Remote ropts) props uc key cub rce rdfce⟩ = .error e) ∧
    (∃ r, get_command_executor ⟨.LocalOnly, ua, scr, scw, par, mfi⟩
        ⟨false, dcE, onlyE⟩ ⟨.Local lopts⟩ = .ok r) ∧
    (∃ e, get_command_executor ⟨.RemoteOnly, ua, scr, scw, par, mfi⟩
        ⟨false, dcE, onlyE⟩ ⟨.Local lopts⟩ = .error e) ∧
    (∃ r, get_command_executor ⟨.RemoteOnly, ua, scr, scw, par, mfi⟩
        ⟨false, dcE, onlyE⟩
        ⟨.RemoteEnabled (.Remote ropts) props uc key cub rce rdfce⟩ = .ok r) :=
  ⟨⟨_, rfl⟩, ⟨_, rfl⟩, ⟨_, rfl⟩, ⟨_, rfl⟩⟩

/-- C7: in the cargo-build environment (no access to the remote
service), the declared executor config is ignored: the call fails
exactly when the strategy bans local execution, and otherwise returns a
local executor built from default options with empty platform and no-op
cache checker and uploader. -/
theorem C7_cargo_build_forces_local (strat : ExecutionStrategy)
    (ua scr scw par mfi : Bool) (dcE onlyE : Option Bool)
    (cfg : CommandExecutorConfig) :
    get_command_executor ⟨strat, ua, scr, scw, par, mfi⟩ ⟨true, dcE, onlyE⟩ cfg =
      (if strat.ban_local then .error STRATEGY_INCOMPATIBLE_WITH_LOCAL
       else .ok { executor := .LocalExec (local_executor_new {})
                  platform := []
                  cache_checker := .NoOp
                  cache_uploader := .NoOp }) := rfl

/-- C8: `parse_concurrency 0` returns the detected host parallelism,
positive by hypothesis; `parse_concurrency n` with `n` positive returns
`n`; every successful result is positive. -/
theorem C8_parse_concurrency (numCpus : Nat) (h : 0 < numCpus) (n : Nat) :
    parse_concurrency numCpus 0 = .ok numCpus ∧
    (0 < n → parse_concurrency numCpus n = .ok n) ∧
    (∀ m res, parse_concurrency numCpus m = .ok res → 0 < res) := by
  refine ⟨rfl, fun hn => ?_, fun m res hm => ?_⟩
  · simp [parse_concurrency, Nat.pos_iff_ne_zero.mp hn]
  · by_cases hz : m = 0 <;> simp [parse_concurrency, hz] at hm <;> omega

/-- C8 witness: with 4 detected cpus, a request of 0 yields 4 and a
request of 3 yields 3. -/
theorem C8_witness :
    parse_concurrency 4 0 = .ok 4 ∧ parse_concurrency 4 3 = .ok 3 :=
  ⟨(C8_parse_concurrency 4 (by decide) 3).1,
   (C8_parse_concurrency 4 (by decide) 3).2.1 (by decide)⟩

/-- C9: with paranoid mode active, a `RemoteEnabled` config with a
non-hybrid inner variant returns the plain local or remote executor,
with no stacked cache-chain wrapping, and the response cache checker is
the no-op checker even when caching is enabled in the config. -/
theorem C9_paranoid_non_hybrid (strat : ExecutionStrategy)
    (ua scr scw mfi : Bool) (dcE onlyE : Option Bool)
    (lopts : LocalExecutorOptions) (ropts : RemoteExecutorOptions)
    (props : List (String × String)) (uc : String) (key : Option String)
    (cub : CacheUploadBehavior) (rce rdfce : Bool) :
    (strat.ban_local = false →
      get_command_executor ⟨strat, ua, scr, scw, true, mfi⟩ ⟨false, dcE, onlyE⟩
          ⟨.RemoteEnabled (.Local lopts) props uc key cub rce rdfce⟩ =
        .ok { executor := .LocalExec (local_executor_new lopts)
              platform := props
              cache_checker := .NoOp
              cache_uploader :=
                if disable_caching_flag dcE scr rce rdfce then .NoOp
                else match cub with
                  | .Enabled mb => .Uploader uc props mb
                  | .Disabled => .NoOp }) ∧
    (strat.ban_remote = false →
      get_command_executor ⟨strat, ua, scr, scw, true, mfi⟩ ⟨false, dcE, onlyE⟩
          ⟨.RemoteEnabled (.Remote ropts) props uc key cub rce rdfce⟩ =
        .ok { executor := .ReExec (remote_executor_new
                ⟨strat, ua, scr, scw, true, mfi⟩ ropts uc key rce)
              platform := props
              cache_checker := .NoOp
              cache_uploader :=
                if disable_caching_flag dcE scr rce rdfce then .NoOp
                else match cub with
                  | .Enabled mb => .Uploader uc props mb
                  | .Disabled => .NoOp }) := by
  constructor
  · intro hb
    simp [get_command_executor, remote_enabled_candidate, hb]
  · intro hb
    simp [get_command_executor, remote_enabled_candidate, hb]

/-- C9 witness: a paranoid factory under the `Default` strategy on the
inner `Local` and inner `Remote` variants, with the remote cache
enabled, returns the plain executor and a no-op cache checker. -/
theorem C9_witness :
    get_command_executor ⟨.Default, false, false, false, true, false⟩
        ⟨false, none, none⟩
        ⟨.RemoteEnabled (.Local {}) [] "uc" none .Disabled true false⟩ =
      .ok { executor := .LocalExec { worker_pool := false }
            platform := []
            cache_checker := .NoOp
            cache_uploader := .NoOp } ∧
    get_command_executor ⟨.Default, false, false, false, true, false⟩
        ⟨false, none, none⟩
        ⟨.RemoteEnabled (.Remote {}) [] "uc" none .Disabled true false⟩ =
      .ok { executor := .ReExec ⟨"uc", none, none, false, false, true, false⟩
            platform := []
            cache_checker := .NoOp
            cache_uploader := .NoOp } :=
  ⟨(C9_paranoid_non_hybrid .Default false false false false none none {} {}
      [] "uc" none .Disabled true false).1 rfl,
   (C9_paranoid_non_hybrid .Default false false false false none none {} {}
      [] "uc" none .Disabled true false).2 rfl⟩

/-- C10: a successful response for a config whose executor is the plain
`Local` variant always has a no-op cache checker, a no-op cache
uploader, and an empty platform descriptor, whatever the factory state
and environment overrides. -/
theorem C10_local_config_no_caching (f : CommandExecutorFactory)
    (env : ExecEnv) (lopts : LocalExecutorOptions)
    (r : CommandExecutorResponse)
    (h : get_command_executor f env ⟨.Local lopts⟩ = .ok r) :
    r.cache_checker = .NoOp ∧ r.cache_uploader = .NoOp ∧ r.platform = [] := by
  obtain ⟨cb, dcE, onlyE⟩ := env
  cases cb <;> cases hb : f.strategy.ban_local <;>
    simp [get_command_executor, hb] at h <;> subst h <;> exact ⟨rfl, rfl, rfl⟩

/-- C10 witness: a default factory on a plain `Local` config yields the
no-op cache checker and uploader and the empty platform. -/
theorem C10_witness :
    ({ executor := .LocalExec { worker_pool := false }
       platform := []
       cache_checker := .NoOp
       cache_uploader := .NoOp } : CommandExecutorResponse).cache_checker =
      CacheChecker.NoOp ∧
    ({ executor := .LocalExec { worker_pool := false }
       platform := []
       cache_checker := .NoOp
       cache_uploader := .NoOp } : CommandExecutorResponse).cache_uploader =
      CacheUploader.NoOp :=
  ⟨(C10_local_config_no_caching ⟨.Default, false, false, false, false, false⟩
      ⟨false, none, none⟩ {} _ rfl).1,
   (C10_local_config_no_caching ⟨.Default, false, false, false, false, false⟩
      ⟨false, none, none⟩ {} _ rfl).2.1⟩

end Buck2
